import Mathlib

/-!
Verification of the AAVE v3 liquidation bot (TypeScript sources under src/).

Shallow embedding conventions:
* `BigNumber` values (token amounts, on-chain prices, health factors, gas prices)
  are arbitrary-precision nonnegative integers in the source and are modelled as
  `Nat`; `BigNumber.div` truncates, matching `Nat` division.
* Ethereum addresses are modelled as `Nat` below `2 ^ 160`; byte strings as
  `List Nat` with each entry below 256.
* JavaScript floating point numbers (USD amounts, percentages, the liquidation
  bonus) are modelled as exact rationals.  No claim below depends on float
  rounding: float values only enter through comparisons and products whose
  operands are small decimal constants.
* The modules `src/config.ts` and `src/interfaces.ts` are not present in the
  repository; configuration values (close-factor threshold, gas ceiling,
  minimum profit, discrepancy threshold) therefore appear as explicit
  parameters, and record fields are reconstructed from the call sites.
* Asynchronous reads (prices, gas price, transaction receipts) are passed in as
  explicit environment data, so every function here is a pure function of its
  inputs.
-/

/-- Models the asset records consumed by calculateLiquidationProfit in
src/core/liquidator.ts (the interfaces module is absent from the repository,
so the field set is reconstructed from the call sites).  The field
liquidationBonus is a JS number such as 1.05; an absent field is none and the
JS value 0 is some 0 (both are falsy in the source). -/
structure Asset where
  address : Nat
  symbol : String
  amount : Nat
  decimals : Nat
  liquidationBonus : Option ℚ
  deriving DecidableEq

/-- Models LiquidationTarget as used in src/core/liquidator.ts and the
strategy files: user address, health factor (18-decimal fixed point
BigNumber), E-Mode category id (0 meaning none). -/
structure LiquidationTarget where
  user : Nat
  healthFactor : Nat
  eModeCategoryId : Nat
  deriving DecidableEq

/-- Models line 72-74 of src/core/liquidator.ts: the close factor multiplier is
10000 (100 percent) when target.healthFactor.lt(config.closeFactorHfThreshold)
and 5000 (50 percent) otherwise. -/
def closeFactorMultiplier (healthFactor closeFactorHfThreshold : Nat) : Nat :=
  if healthFactor < closeFactorHfThreshold then 10000 else 5000

/-- Models line 76 of src/core/liquidator.ts:
debtAsset.amount.mul(closeFactorMultiplier).div(10000). -/
def maxDebtToCover (healthFactor closeFactorHfThreshold amount : Nat) : Nat :=
  amount * closeFactorMultiplier healthFactor closeFactorHfThreshold / 10000

/-- Models line 82 of src/core/liquidator.ts:
collateralAsset.liquidationBonus || 1.05.  The JS or-operator falls through to
the fallback 1.05 when the field is undefined or has the falsy value 0. -/
def effectiveLiquidationBonus (collateralAsset : Asset) : ℚ :=
  match collateralAsset.liquidationBonus with
  | none => 105 / 100
  | some b => if b = 0 then 105 / 100 else b

/-- Models Math.floor(liquidationBonus * 10000) at line 89 of
src/core/liquidator.ts (liquidation bonuses are nonnegative multipliers, so
the floor is taken in Nat). -/
def liquidationBonusBps (liquidationBonus : ℚ) : Nat :=
  (liquidationBonus * 10000).floor.toNat

/-- Models lines 86-92 of src/core/liquidator.ts: the BigNumber chain
debtAssetPrice.mul(debtToCover).mul(10 pow collateralDecimals).mul(bonusBps)
.div(collateralAssetPrice).div(10 pow debtDecimals).div(10000), with each
division truncating. -/
def collateralToReceiveCalc (debtAssetPrice debtToCover collateralDecimals
    bonusBps collateralAssetPrice debtDecimals : Nat) : Nat :=
  debtAssetPrice * debtToCover * 10 ^ collateralDecimals * bonusBps
    / collateralAssetPrice / 10 ^ debtDecimals / 10000

/-- Models the LiquidationProfitCalculation record returned at lines 126-138 of
src/core/liquidator.ts. -/
structure LiquidationProfitCalculation where
  target : LiquidationTarget
  debtAsset : Asset
  collateralAsset : Asset
  debtToCover : Nat
  collateralToReceive : Nat
  liquidationBonus : ℚ
  estimatedProfitUsd : ℚ
  estimatedGasCostUsd : ℚ
  netProfitUsd : ℚ
  profitable : Bool
  executionPriority : ℚ
  deriving DecidableEq

/-- Models calculateLiquidationProfit (src/core/liquidator.ts lines 61-143).
Configuration values closeFactorHfThreshold and minProfitUsd are parameters
because src/config.ts is absent from the repository.  The price reads, the gas
price read and the native-asset USD price (derived in the source from the
oracle price of config.aavePoolAddress scaled by 1e-8) are passed in as
explicit inputs.  The flash loan premium is the instance field 9 (of 10000)
and the gas limit estimate is the literal 1000000. -/
def calculateLiquidationProfit (closeFactorHfThreshold : Nat) (minProfitUsd : ℚ)
    (target : LiquidationTarget) (debtAsset collateralAsset : Asset)
    (debtAssetPrice collateralAssetPrice : Nat) (gasPriceWei : Nat)
    (ethPriceUsd : ℚ) : LiquidationProfitCalculation :=
  let maxDebt := maxDebtToCover target.healthFactor closeFactorHfThreshold debtAsset.amount
  let debtToCover := maxDebt * 95 / 100
  let liquidationBonus := effectiveLiquidationBonus collateralAsset
  let collateralToReceive := collateralToReceiveCalc debtAssetPrice debtToCover
    collateralAsset.decimals (liquidationBonusBps liquidationBonus)
    collateralAssetPrice debtAsset.decimals
  let debtAmountUsd : ℚ :=
    (debtToCover : ℚ) / 10 ^ debtAsset.decimals * ((debtAssetPrice : ℚ) / 10 ^ 8)
  let collateralAmountUsd : ℚ :=
    (collateralToReceive : ℚ) / 10 ^ collateralAsset.decimals
      * ((collateralAssetPrice : ℚ) / 10 ^ 8)
  let grossProfitUsd := collateralAmountUsd - debtAmountUsd
  let flashLoanCostUsd := debtAmountUsd * (9 / 10000 : ℚ)
  let gasCostUsd : ℚ := ((gasPriceWei * 1000000 : Nat) : ℚ) / 10 ^ 18 * ethPriceUsd
  let netProfitUsd := grossProfitUsd - flashLoanCostUsd - gasCostUsd
  let profitable : Bool := decide (netProfitUsd > minProfitUsd)
  let executionPriority : ℚ := if profitable then netProfitUsd / debtAmountUsd * 100 else 0
  { target := target
    debtAsset := debtAsset
    collateralAsset := collateralAsset
    debtToCover := debtToCover
    collateralToReceive := collateralToReceive
    liquidationBonus := liquidationBonus
    estimatedProfitUsd := grossProfitUsd
    estimatedGasCostUsd := gasCostUsd + flashLoanCostUsd
    netProfitUsd := netProfitUsd
    profitable := profitable
    executionPriority := executionPriority }

/-- C1: calculateLiquidationProfit selects the close factor from the health
factor alone; below the threshold the maximum coverable debt is the full
outstanding amount, at or above it half the outstanding amount. -/
theorem closeFactor_selection (closeFactorHfThreshold : Nat) (minProfitUsd : ℚ)
    (target : LiquidationTarget) (debtAsset collateralAsset : Asset)
    (debtAssetPrice collateralAssetPrice gasPriceWei : Nat) (ethPriceUsd : ℚ) :
    (calculateLiquidationProfit closeFactorHfThreshold minProfitUsd target
        debtAsset collateralAsset debtAssetPrice collateralAssetPrice
        gasPriceWei ethPriceUsd).debtToCover
      = maxDebtToCover target.healthFactor closeFactorHfThreshold debtAsset.amount * 95 / 100
    ∧ (target.healthFactor < closeFactorHfThreshold →
        maxDebtToCover target.healthFactor closeFactorHfThreshold debtAsset.amount
          = debtAsset.amount)
    ∧ (closeFactorHfThreshold ≤ target.healthFactor →
        maxDebtToCover target.healthFactor closeFactorHfThreshold debtAsset.amount
          = debtAsset.amount / 2) := by
  refine ⟨rfl, ?_, ?_⟩
  · intro h
    simp [maxDebtToCover, closeFactorMultiplier, h]
  · intro h
    have hlt : ¬ target.healthFactor < closeFactorHfThreshold := not_lt.mpr h
    simp only [maxDebtToCover, closeFactorMultiplier, if_neg hlt]
    omega

/-- Witness for closeFactor_selection at a concrete input: health factor 0.90e18
against threshold 0.95e18 yields full coverage, 0.98e18 yields half. -/
theorem closeFactor_selection_witness :
    maxDebtToCover 900000000000000000 950000000000000000 1000000000 = 1000000000
    ∧ maxDebtToCover 980000000000000000 950000000000000000 1000000000 = 500000000 := by
  constructor
  · exact (closeFactor_selection 950000000000000000 50
      ⟨1, 900000000000000000, 0⟩ ⟨2, "USDC", 1000000000, 6, none⟩
      ⟨3, "WETH", 0, 18, none⟩ 100000000 100000000 1000000000 2000).2.1 (by decide)
  · have h := (closeFactor_selection 950000000000000000 50
      ⟨1, 980000000000000000, 0⟩ ⟨2, "USDC", 1000000000, 6, none⟩
      ⟨3, "WETH", 0, 18, none⟩ 100000000 100000000 1000000000 2000).2.2 (by decide)
    simpa using h

/-- C2: the debt to cover equals 95 percent (with truncating division) of the
close-factor cap on the outstanding debt amount, and in particular never
exceeds that cap. -/
theorem debtToCover_within_cap (closeFactorHfThreshold : Nat) (minProfitUsd : ℚ)
    (target : LiquidationTarget) (debtAsset collateralAsset : Asset)
    (debtAssetPrice collateralAssetPrice gasPriceWei : Nat) (ethPriceUsd : ℚ) :
    (calculateLiquidationProfit closeFactorHfThreshold minProfitUsd target
        debtAsset collateralAsset debtAssetPrice collateralAssetPrice
        gasPriceWei ethPriceUsd).debtToCover
      = maxDebtToCover target.healthFactor closeFactorHfThreshold debtAsset.amount * 95 / 100
    ∧ (calculateLiquidationProfit closeFactorHfThreshold minProfitUsd target
        debtAsset collateralAsset debtAssetPrice collateralAssetPrice
        gasPriceWei ethPriceUsd).debtToCover
      ≤ maxDebtToCover target.healthFactor closeFactorHfThreshold debtAsset.amount := by
  refine ⟨rfl, ?_⟩
  show maxDebtToCover target.healthFactor closeFactorHfThreshold debtAsset.amount * 95 / 100
    ≤ maxDebtToCover target.healthFactor closeFactorHfThreshold debtAsset.amount
  calc maxDebtToCover target.healthFactor closeFactorHfThreshold debtAsset.amount * 95 / 100
      ≤ maxDebtToCover target.healthFactor closeFactorHfThreshold debtAsset.amount * 100 / 100 :=
        Nat.div_le_div_right (Nat.mul_le_mul_left _ (by norm_num))
    _ = maxDebtToCover target.healthFactor closeFactorHfThreshold debtAsset.amount :=
        Nat.mul_div_cancel _ (by norm_num)

/-- Helper: the two trailing truncating divisions in the collateral formula can
be grouped into a division by the product, as in the specification formula. -/
theorem collateralToReceiveCalc_group (debtAssetPrice debtToCover collateralDecimals
    bonusBps collateralAssetPrice debtDecimals : Nat) :
    collateralToReceiveCalc debtAssetPrice debtToCover collateralDecimals
        bonusBps collateralAssetPrice debtDecimals
      = debtAssetPrice * debtToCover * 10 ^ collateralDecimals * bonusBps
          / (collateralAssetPrice * 10 ^ debtDecimals) / 10000 := by
  unfold collateralToReceiveCalc
  rw [Nat.div_div_eq_div_mul
    (debtAssetPrice * debtToCover * 10 ^ collateralDecimals * bonusBps)
    collateralAssetPrice (10 ^ debtDecimals)]

/-- C3: the collateral amount receivable equals, in exact integer arithmetic,
debtPrice * debtToCover * 10 ^ collateralDecimals * bonusBps divided by
(collateralPrice * 10 ^ debtDecimals) and then by 10000; the scenario with
debt price 2000e8, collateral price 1e8, debt to cover 1000e6, bonus 10500
bps and 18 collateral decimals gives the specified value scaled by the
6-decimal raw-unit factor of the debt amount. -/
theorem collateralToReceive_formula (closeFactorHfThreshold : Nat) (minProfitUsd : ℚ)
    (target : LiquidationTarget) (debtAsset collateralAsset : Asset)
    (debtAssetPrice collateralAssetPrice gasPriceWei : Nat) (ethPriceUsd : ℚ) :
    (calculateLiquidationProfit closeFactorHfThreshold minProfitUsd target
        debtAsset collateralAsset debtAssetPrice collateralAssetPrice
        gasPriceWei ethPriceUsd).collateralToReceive
      = debtAssetPrice
          * (calculateLiquidationProfit closeFactorHfThreshold minProfitUsd target
              debtAsset collateralAsset debtAssetPrice collateralAssetPrice
              gasPriceWei ethPriceUsd).debtToCover
          * 10 ^ collateralAsset.decimals
          * liquidationBonusBps (effectiveLiquidationBonus collateralAsset)
          / (collateralAssetPrice * 10 ^ debtAsset.decimals) / 10000
    ∧ collateralToReceiveCalc (2000 * 10 ^ 8) (1000 * 10 ^ 6) 18 10500 (1 * 10 ^ 8) 6
      = 2000 * 1000 * 10 ^ 18 * 10500 / (1 * 10 ^ 6 * 10000) * 10 ^ 6 := by
  exact ⟨collateralToReceiveCalc_group debtAssetPrice _ collateralAsset.decimals
      (liquidationBonusBps (effectiveLiquidationBonus collateralAsset))
      collateralAssetPrice debtAsset.decimals, by decide⟩

/-- C10: when the configured liquidation bonus of the collateral asset is the
falsy value 0, the fallback 1.05 is selected (the same value as for an absent
field), so a zero bonus is never applied to the collateral computation. -/
theorem zero_bonus_uses_fallback (collateralAsset : Asset)
    (h : collateralAsset.liquidationBonus = some 0) :
    effectiveLiquidationBonus collateralAsset = 105 / 100
    ∧ effectiveLiquidationBonus collateralAsset
        = effectiveLiquidationBonus { collateralAsset with liquidationBonus := none }
    ∧ liquidationBonusBps (effectiveLiquidationBonus collateralAsset) = 10500
    ∧ effectiveLiquidationBonus collateralAsset ≠ 0 := by
  have he : effectiveLiquidationBonus collateralAsset = 105 / 100 := by
    simp [effectiveLiquidationBonus, h]
  refine ⟨he, ?_, ?_, ?_⟩
  · rw [he]; rfl
  · rw [he]
    have h2 : ((105 : ℚ) / 100 * 10000) = 10500 := by norm_num
    rw [liquidationBonusBps, h2]
    rfl
  · rw [he]; norm_num

/-- Witness for zero_bonus_uses_fallback on a concrete asset record carrying a
configured bonus of 0. -/
theorem zero_bonus_uses_fallback_witness :
    effectiveLiquidationBonus ⟨3, "WETH", 0, 18, some 0⟩ = 105 / 100 :=
  (zero_bonus_uses_fallback ⟨3, "WETH", 0, 18, some 0⟩ rfl).1

/-- Models the PriceData record built at lines 119-126 of
src/services/priceMonitor.ts.  The discrepancy percentage is a JS number or
undefined, modelled as an optional rational; the dex price field is omitted
here because no claim reads it. -/
structure PriceData where
  assetAddress : Nat
  aaveOraclePrice : Nat
  externalApiPrice : Option Nat
  timestamp : Nat
  discrepancyPercentage : Option ℚ
  deriving DecidableEq

/-- Models hasPriceDiscrepancy (src/services/priceMonitor.ts lines 242-250).
The price cache Map is modelled as an association list keyed by asset address.
The source tests !cachedPrice || !cachedPrice.discrepancyPercentage, where the
JS negation of the number field is true both when it is undefined and when it
is 0; both cases return false.  Otherwise the result is the comparison of the
cached discrepancy against config.priceDifferenceThreshold (a parameter here
because src/config.ts is absent from the repository). -/
def hasPriceDiscrepancy (priceDifferenceThreshold : ℚ)
    (priceCache : List (Nat × PriceData)) (assetAddress : Nat) : Bool :=
  match priceCache.lookup assetAddress with
  | none => false
  | some cachedPrice =>
    match cachedPrice.discrepancyPercentage with
    | none => false
    | some d => if d = 0 then false else decide (d > priceDifferenceThreshold)

/-- C9: hasPriceDiscrepancy returns false when no quote is cached for the asset
or the cached quote has no discrepancy figure, and otherwise returns true
exactly when the cached discrepancy exceeds the configured threshold.  The
threshold is assumed nonnegative (it is a percentage-difference bound); the
function is total, so no error is raised in any case. -/
theorem hasPriceDiscrepancy_spec (priceDifferenceThreshold : ℚ)
    (priceCache : List (Nat × PriceData)) (assetAddress : Nat)
    (hthr : 0 ≤ priceDifferenceThreshold) :
    (priceCache.lookup assetAddress = none →
      hasPriceDiscrepancy priceDifferenceThreshold priceCache assetAddress = false)
    ∧ (∀ cachedPrice, priceCache.lookup assetAddress = some cachedPrice →
        cachedPrice.discrepancyPercentage = none →
        hasPriceDiscrepancy priceDifferenceThreshold priceCache assetAddress = false)
    ∧ (∀ cachedPrice d, priceCache.lookup assetAddress = some cachedPrice →
        cachedPrice.discrepancyPercentage = some d →
        (hasPriceDiscrepancy priceDifferenceThreshold priceCache assetAddress
          = decide (d > priceDifferenceThreshold))) := by
  refine ⟨?_, ?_, ?_⟩
  · intro h
    simp [hasPriceDiscrepancy, h]
  · intro cachedPrice h hd
    simp [hasPriceDiscrepancy, h, hd]
  · intro cachedPrice d h hd
    simp only [hasPriceDiscrepancy, h, hd]
    by_cases hz : d = 0
    · subst hz
      simp [not_lt.mpr hthr]
    · simp [hz]

/-- Witness for hasPriceDiscrepancy_spec: with threshold 2 an empty cache gives
false, a cached figure of 3 gives true and a cached figure of 1 gives false. -/
theorem hasPriceDiscrepancy_spec_witness :
    hasPriceDiscrepancy 2 [] 7 = false
    ∧ hasPriceDiscrepancy 2 [(7, ⟨7, 100000000, some 103000000, 0, some 3⟩)] 7 = true
    ∧ hasPriceDiscrepancy 2 [(7, ⟨7, 100000000, some 101000000, 0, some 1⟩)] 7 = false := by
  refine ⟨(hasPriceDiscrepancy_spec 2 [] 7 (by norm_num)).1 rfl, ?_, ?_⟩
  · have h := (hasPriceDiscrepancy_spec 2
      [(7, ⟨7, 100000000, some 103000000, 0, some 3⟩)] 7 (by norm_num)).2.2
      ⟨7, 100000000, some 103000000, 0, some 3⟩ 3 (by decide) rfl
    rw [h]; decide
  · have h := (hasPriceDiscrepancy_spec 2
      [(7, ⟨7, 100000000, some 101000000, 0, some 1⟩)] 7 (by norm_num)).2.2
      ⟨7, 100000000, some 101000000, 0, some 1⟩ 1 (by decide) rfl
    rw [h]; decide

/-- Big-endian base-256 encoding of a natural number into exactly k bytes,
most significant byte first (the layout of one 32-byte ABI word). -/
def natToBytesBE : Nat → Nat → List Nat
  | 0, _ => []
  | k + 1, n => natToBytesBE k (n / 256) ++ [n % 256]

/-- Big-endian interpretation of a byte list as a natural number. -/
def bytesToNatBE (bs : List Nat) : Nat :=
  bs.foldl (fun acc b => acc * 256 + b) 0

/-- Models the ABI head encoding produced at lines 155-164 of
src/core/liquidator.ts: defaultAbiCoder.encode of the tuple
(address, address, address, uint256, bool) lays out five 32-byte words, each
value left-padded with zero bytes, the bool as the word 0 or 1. -/
def encodeLiquidationParams (collateralAsset debtAsset user debtToCover : Nat)
    (receiveAToken : Bool) : List Nat :=
  natToBytesBE 32 collateralAsset ++ (natToBytesBE 32 debtAsset
    ++ (natToBytesBE 32 user ++ (natToBytesBE 32 debtToCover
    ++ natToBytesBE 32 (if receiveAToken then 1 else 0))))

/-- Reads the 32-byte ABI word number i from a byte string. -/
def wordAt (bs : List Nat) (i : Nat) : Nat :=
  bytesToNatBE ((bs.drop (32 * i)).take 32)

/-- Models abi.decode(params, (address, address, address, uint256, bool)) in
executeOperation of src/contracts/FlashLoanLiquidator.sol (lines 59-66): the
five head words are read back; solc generated decoding reverts (modelled as
none) when the data is shorter than the head, when an address word has dirty
upper bits, or when the bool word is neither 0 nor 1. -/
def decodeLiquidationParams (bs : List Nat) :
    Option (Nat × Nat × Nat × Nat × Bool) :=
  if bs.length < 160 then none
  else
    let w0 := wordAt bs 0
    let w1 := wordAt bs 1
    let w2 := wordAt bs 2
    let w3 := wordAt bs 3
    let w4 := wordAt bs 4
    if w0 < 2 ^ 160 ∧ w1 < 2 ^ 160 ∧ w2 < 2 ^ 160 ∧ w4 ≤ 1 then
      some (w0, w1, w2, w3, w4 == 1)
    else none

/-- Helper: natToBytesBE always produces exactly k bytes. -/
theorem natToBytesBE_length (k n : Nat) : (natToBytesBE k n).length = k := by
  induction k generalizing n with
  | zero => rfl
  | succ k ih => simp [natToBytesBE, ih]

/-- Helper: folding the big-endian interpretation from an arbitrary
accumulator scales the accumulator by 256 to the byte count. -/
theorem bytesToNatBE_foldl_init (bs : List Nat) (a : Nat) :
    bs.foldl (fun acc b => acc * 256 + b) a
      = a * 256 ^ bs.length + bs.foldl (fun acc b => acc * 256 + b) 0 := by
  induction bs generalizing a with
  | nil => simp
  | cons b bs ih =>
    simp only [List.foldl_cons, List.length_cons]
    rw [ih (a * 256 + b), ih (0 * 256 + b)]
    ring

/-- Helper: the two base-256 conversions are mutually inverse on numbers that
fit in k bytes. -/
theorem bytesToNatBE_natToBytesBE (k n : Nat) (h : n < 256 ^ k) :
    bytesToNatBE (natToBytesBE k n) = n := by
  induction k generalizing n with
  | zero =>
    interval_cases n
    rfl
  | succ k ih =>
    have hdiv : n / 256 < 256 ^ k := by
      rw [Nat.div_lt_iff_lt_mul (by norm_num)]
      calc n < 256 ^ (k + 1) := h
        _ = 256 ^ k * 256 := by ring
    simp only [natToBytesBE, bytesToNatBE, List.foldl_append, List.foldl_cons,
      List.foldl_nil]
    have hrec : (natToBytesBE k (n / 256)).foldl (fun acc b => acc * 256 + b) 0
        = n / 256 := ih (n / 256) hdiv
    rw [hrec]
    omega

/-- Helper: dropping one leading 32-byte word of an ABI word sequence. -/
theorem drop_32_word (n : Nat) (rest : List Nat) :
    (natToBytesBE 32 n ++ rest).drop 32 = rest :=
  List.drop_left' (natToBytesBE_length 32 n)

/-- Helper: reading the leading word of an ABI word sequence. -/
theorem take_32_word (n : Nat) (rest : List Nat) :
    (natToBytesBE 32 n ++ rest).take 32 = natToBytesBE 32 n :=
  List.take_left' (natToBytesBE_length 32 n)

/-- Helper: the leading word of a word-aligned byte string reads back the
encoded number. -/
theorem wordAt_zero (n : Nat) (rest : List Nat) (hn : n < 256 ^ 32) :
    wordAt (natToBytesBE 32 n ++ rest) 0 = n := by
  simp only [wordAt, Nat.mul_zero, List.drop_zero]
  rw [take_32_word]
  exact bytesToNatBE_natToBytesBE 32 n hn

/-- C8: decoding the flash-loan parameter bytes produced by the execution path
reproduces the original (collateralAsset, debtAsset, user, debtToCover,
receiveAToken) tuple exactly, for any addresses below 2 to the 160, any
uint256 debt amount, and either flag value. -/
theorem encodeDecode_roundtrip (collateralAsset debtAsset user debtToCover : Nat)
    (receiveAToken : Bool) (hc : collateralAsset < 2 ^ 160)
    (hd : debtAsset < 2 ^ 160) (hu : user < 2 ^ 160)
    (hdc : debtToCover < 2 ^ 256) :
    decodeLiquidationParams (encodeLiquidationParams collateralAsset debtAsset
        user debtToCover receiveAToken)
      = some (collateralAsset, debtAsset, user, debtToCover, receiveAToken) := by
  have hpow : (2:ℕ) ^ 160 ≤ 256 ^ 32 := by norm_num
  have hc32 : collateralAsset < 256 ^ 32 := lt_of_lt_of_le hc hpow
  have hd32 : debtAsset < 256 ^ 32 := lt_of_lt_of_le hd hpow
  have hu32 : user < 256 ^ 32 := lt_of_lt_of_le hu hpow
  have hdc32 : debtToCover < 256 ^ 32 := lt_of_lt_of_le hdc (by norm_num)
  have hb32 : (if receiveAToken then 1 else 0) < 256 ^ 32 := by
    cases receiveAToken <;> norm_num
  rw [encodeLiquidationParams]
  have d1 : (natToBytesBE 32 collateralAsset ++ (natToBytesBE 32 debtAsset
      ++ (natToBytesBE 32 user ++ (natToBytesBE 32 debtToCover
      ++ natToBytesBE 32 (if receiveAToken then 1 else 0))))).drop 32
      = natToBytesBE 32 debtAsset ++ (natToBytesBE 32 user
        ++ (natToBytesBE 32 debtToCover
        ++ natToBytesBE 32 (if receiveAToken then 1 else 0))) :=
    drop_32_word _ _
  have d2 : (natToBytesBE 32 collateralAsset ++ (natToBytesBE 32 debtAsset
      ++ (natToBytesBE 32 user ++ (natToBytesBE 32 debtToCover
      ++ natToBytesBE 32 (if receiveAToken then 1 else 0))))).drop 64
      = natToBytesBE 32 user ++ (natToBytesBE 32 debtToCover
        ++ natToBytesBE 32 (if receiveAToken then 1 else 0)) := by
    rw [show (64:ℕ) = 32 + 32 by norm_num, ← List.drop_drop, d1, drop_32_word]
  have d3 : (natToBytesBE 32 collateralAsset ++ (natToBytesBE 32 debtAsset
      ++ (natToBytesBE 32 user ++ (natToBytesBE 32 debtToCover
      ++ natToBytesBE 32 (if receiveAToken then 1 else 0))))).drop 96
      = natToBytesBE 32 debtToCover
        ++ natToBytesBE 32 (if receiveAToken then 1 else 0) := by
    rw [show (96:ℕ) = 64 + 32 by norm_num, ← List.drop_drop, d2, drop_32_word]
  have d4 : (natToBytesBE 32 collateralAsset ++ (natToBytesBE 32 debtAsset
      ++ (natToBytesBE 32 user ++ (natToBytesBE 32 debtToCover
      ++ natToBytesBE 32 (if receiveAToken then 1 else 0))))).drop 128
      = natToBytesBE 32 (if receiveAToken then 1 else 0) := by
    rw [show (128:ℕ) = 96 + 32 by norm_num, ← List.drop_drop, d3, drop_32_word]
  have hlen : (natToBytesBE 32 collateralAsset ++ (natToBytesBE 32 debtAsset
      ++ (natToBytesBE 32 user ++ (natToBytesBE 32 debtToCover
      ++ natToBytesBE 32 (if receiveAToken then 1 else 0))))).length = 160 := by
    simp [natToBytesBE_length]
  have h0 : wordAt (natToBytesBE 32 collateralAsset ++ (natToBytesBE 32 debtAsset
      ++ (natToBytesBE 32 user ++ (natToBytesBE 32 debtToCover
      ++ natToBytesBE 32 (if receiveAToken then 1 else 0))))) 0
      = collateralAsset := wordAt_zero _ _ hc32
  have h1 : wordAt (natToBytesBE 32 collateralAsset ++ (natToBytesBE 32 debtAsset
      ++ (natToBytesBE 32 user ++ (natToBytesBE 32 debtToCover
      ++ natToBytesBE 32 (if receiveAToken then 1 else 0))))) 1 = debtAsset := by
    simp only [wordAt, Nat.mul_one]
    rw [d1, take_32_word]
    exact bytesToNatBE_natToBytesBE 32 _ hd32
  have h2 : wordAt (natToBytesBE 32 collateralAsset ++ (natToBytesBE 32 debtAsset
      ++ (natToBytesBE 32 user ++ (natToBytesBE 32 debtToCover
      ++ natToBytesBE 32 (if receiveAToken then 1 else 0))))) 2 = user := by
    simp only [wordAt, show 32 * 2 = 64 by norm_num]
    rw [d2, take_32_word]
    exact bytesToNatBE_natToBytesBE 32 _ hu32
  have h3 : wordAt (natToBytesBE 32 collateralAsset ++ (natToBytesBE 32 debtAsset
      ++ (natToBytesBE 32 user ++ (natToBytesBE 32 debtToCover
      ++ natToBytesBE 32 (if receiveAToken then 1 else 0))))) 3 = debtToCover := by
    simp only [wordAt, show 32 * 3 = 96 by norm_num]
    rw [d3, take_32_word]
    exact bytesToNatBE_natToBytesBE 32 _ hdc32
  have h4 : wordAt (natToBytesBE 32 collateralAsset ++ (natToBytesBE 32 debtAsset
      ++ (natToBytesBE 32 user ++ (natToBytesBE 32 debtToCover
      ++ natToBytesBE 32 (if receiveAToken then 1 else 0))))) 4
      = (if receiveAToken then 1 else 0) := by
    simp only [wordAt, show 32 * 4 = 128 by norm_num]
    rw [d4]
    have : (natToBytesBE 32 (if receiveAToken then 1 else 0)).take 32
        = natToBytesBE 32 (if receiveAToken then 1 else 0) := by
      apply List.take_of_length_le
      rw [natToBytesBE_length]
    rw [this]
    exact bytesToNatBE_natToBytesBE 32 _ hb32
  rw [decodeLiquidationParams]
  simp only [hlen, h0, h1, h2, h3, h4]
  have hble : (if receiveAToken then (1:ℕ) else 0) ≤ 1 := by
    cases receiveAToken <;> norm_num
  rw [if_neg (by norm_num : ¬ ((160:ℕ) < 160))]
  rw [if_pos ⟨hc, hd, hu, hble⟩]
  cases receiveAToken <;> simp

/-- Witness for encodeDecode_roundtrip on a concrete tuple. -/
theorem encodeDecode_roundtrip_witness :
    decodeLiquidationParams (encodeLiquidationParams 3 5 9 1000000000 false)
      = some (3, 5, 9, 1000000000, false) :=
  encodeDecode_roundtrip 3 5 9 1000000000 false (by norm_num) (by norm_num)
    (by norm_num) (by norm_num)

/-- Models the ExecutionResult records built in executeLiquidation
(src/core/liquidator.ts lines 182-186, 219-225, 228-235, 239-243): success
flag, optional transaction hash, optional error message, optional gas fields
and a timestamp. -/
structure ExecutionResult where
  success : Bool
  transactionHash : Option Nat
  error : Option String
  gasUsed : Option Nat
  gasCostWei : Option Nat
  timestamp : Nat
  deriving DecidableEq

/-- Models the transaction receipt returned by tx.wait(1): status (1 for
success), transaction hash, gas used and effective gas price. -/
structure Receipt where
  status : Nat
  transactionHash : Nat
  gasUsed : Nat
  effectiveGasPrice : Nat
  deriving DecidableEq

/-- Chain-side environment of one executeLiquidation call: the gas price read
from the provider, and the outcome of submitting the flash loan and awaiting
its receipt - either a thrown error message or a receipt. -/
structure ChainEnv where
  currentGasPrice : Nat
  submitResult : Except String Receipt

/-- Models the FlashLoanParams record assembled at lines 167-174 of
src/core/liquidator.ts. -/
structure FlashLoanParams where
  assets : List Nat
  amounts : List Nat
  interestRateModes : List Nat
  receiver : Nat
  params : List Nat
  referralCode : Nat
  deriving DecidableEq

/-- Placeholder address of the separately deployed flash loan executor; the
source keeps it as an unfilled literal. -/
def flashLoanExecutorAddress : Nat := 0

/-- Models executeLiquidation (src/core/liquidator.ts lines 148-245).  The
whole body is wrapped in try/catch in the source, so every outcome - the
gas-price abort, a thrown submission error and both receipt outcomes - is
returned as an ExecutionResult, never raised.  The second component of the
result lists the flash loan transaction that was handed to the pool: it is
empty exactly when the gas-price gate aborted before submission.
config.maxGasPriceGwei is a parameter (src/config.ts is absent); the source
parses it to wei, modelled as multiplication by 10 to the 9. -/
def executeLiquidation (maxGasPriceGwei : Nat) (env : ChainEnv) (now : Nat)
    (calculation : LiquidationProfitCalculation) :
    ExecutionResult × Option FlashLoanParams :=
  let params := encodeLiquidationParams calculation.collateralAsset.address
    calculation.debtAsset.address calculation.target.user
    calculation.debtToCover false
  let flashLoanParams : FlashLoanParams :=
    { assets := [calculation.debtAsset.address]
      amounts := [calculation.debtToCover]
      interestRateModes := [0]
      receiver := flashLoanExecutorAddress
      params := params
      referralCode := 0 }
  let maxGasPrice := maxGasPriceGwei * 10 ^ 9
  if env.currentGasPrice > maxGasPrice then
    ({ success := false, transactionHash := none,
       error := some "Gas price too high", gasUsed := none,
       gasCostWei := none, timestamp := now }, none)
  else
    match env.submitResult with
    | Except.error msg =>
      ({ success := false, transactionHash := none, error := some msg,
         gasUsed := none, gasCostWei := none, timestamp := now },
       some flashLoanParams)
    | Except.ok receipt =>
      if receipt.status = 1 then
        ({ success := true, transactionHash := some receipt.transactionHash,
           error := none, gasUsed := some receipt.gasUsed,
           gasCostWei := some (receipt.gasUsed * receipt.effectiveGasPrice),
           timestamp := now }, some flashLoanParams)
      else
        ({ success := false, transactionHash := some receipt.transactionHash,
           error := some "Transaction failed", gasUsed := some receipt.gasUsed,
           gasCostWei := some (receipt.gasUsed * receipt.effectiveGasPrice),
           timestamp := now }, some flashLoanParams)

/-- Mutable state of the StrategyManager singleton
(src/strategies/strategyManager.ts lines 15-16): the last execution
timestamp and the execution history. -/
structure SMState where
  lastExecutionTime : Nat
  executionHistory : List ExecutionResult
  deriving DecidableEq

/-- Models executionCooldown (src/strategies/strategyManager.ts line 17): one
minute in milliseconds. -/
def executionCooldown : Nat := 60000

/-- Models the best-opportunity selection loop of executeStrategy
(src/strategies/strategyManager.ts lines 188-210), flattening the nested
position/debt/collateral iteration into the list of profit calculations in
the order they are produced: among profitable calculations the first one with
strictly greatest executionPriority is kept. -/
def bestOpportunity (calculations : List LiquidationProfitCalculation) :
    Option LiquidationProfitCalculation :=
  calculations.foldl
    (fun best pc =>
      if pc.profitable then
        match best with
        | none => some pc
        | some b =>
          if pc.executionPriority > b.executionPriority then some pc else some b
      else best)
    none

/-- Models executeStrategy (src/strategies/strategyManager.ts lines 172-233):
if the cooldown window has not elapsed since the last execution the call
returns at once; otherwise the best profitable opportunity, when one exists,
is executed via executeLiquidation, the last execution time is set to the
time read at entry and the result is appended to the history - regardless of
whether the execution succeeded, failed or was aborted by the gas gate.  The
second component lists the transactions handed to the pool. -/
def executeStrategy (maxGasPriceGwei : Nat) (st : SMState) (now : Nat)
    (calculations : List LiquidationProfitCalculation) (env : ChainEnv) :
    SMState × List FlashLoanParams :=
  if now - st.lastExecutionTime < executionCooldown then (st, [])
  else
    match bestOpportunity calculations with
    | none => (st, [])
    | some best =>
      let r := executeLiquidation maxGasPriceGwei env now best
      ({ lastExecutionTime := now,
         executionHistory := st.executionHistory ++ [r.1] }, r.2.toList)

/-- One collateral entry of the oracle delay iteration (strategyManager.ts
lines 259-291): the result of priceMonitor.hasPriceDiscrepancy for the
collateral asset, and the profit calculation for the pair. -/
structure OracleCand where
  hasCollateralDiscrepancy : Bool
  calculation : LiquidationProfitCalculation

/-- One debt-asset group of the oracle delay iteration (strategyManager.ts
lines 252-292): the debt-asset discrepancy test result and the collateral
entries in iteration order.  The outer per-position loop adds no logic of its
own, so the position/debt nesting is flattened into a list of these groups. -/
structure OracleGroup where
  hasDebtDiscrepancy : Bool
  collaterals : List OracleCand

/-- Accumulated outcome of a strategy loop: final manager state, transactions
handed to the pool, number of execution attempts consumed, and whether the
loop returned early after a successful execution. -/
structure StrategyLoopResult where
  state : SMState
  submitted : List FlashLoanParams
  attempts : Nat
  returned : Bool

/-- Models the inner collateral loop of oracleDelayStrategy
(src/strategies/strategyManager.ts lines 259-291): when the collateral asset
also shows a discrepancy and the calculation is profitable, the priority is
boosted by 1.5 and, when net profit exceeds twice the minimum, the
liquidation is executed at once - with no cooldown check - appending the
result to the history and setting the last execution time; the loop returns
early only when the execution succeeded.  Each execution attempt consumes the
next chain environment from env. -/
def oracleDelayCollLoop (maxGasPriceGwei : Nat) (minProfitUsd : ℚ)
    (env : Nat → ChainEnv) (now : Nat) :
    List OracleCand → SMState → Nat → StrategyLoopResult
  | [], st, k => ⟨st, [], k, false⟩
  | c :: rest, st, k =>
    if c.hasCollateralDiscrepancy then
      if c.calculation.profitable then
        let boosted := { c.calculation with
          executionPriority := c.calculation.executionPriority * (3 / 2) }
        if boosted.netProfitUsd > minProfitUsd * 2 then
          let r := executeLiquidation maxGasPriceGwei (env k) now boosted
          let st2 : SMState :=
            { lastExecutionTime := now,
              executionHistory := st.executionHistory ++ [r.1] }
          if r.1.success then ⟨st2, r.2.toList, k + 1, true⟩
          else
            let res := oracleDelayCollLoop maxGasPriceGwei minProfitUsd env now
              rest st2 (k + 1)
            ⟨res.state, r.2.toList ++ res.submitted, res.attempts, res.returned⟩
        else oracleDelayCollLoop maxGasPriceGwei minProfitUsd env now rest st k
      else oracleDelayCollLoop maxGasPriceGwei minProfitUsd env now rest st k
    else oracleDelayCollLoop maxGasPriceGwei minProfitUsd env now rest st k

/-- Models the outer loop of oracleDelayStrategy (strategyManager.ts lines
250-293): debt assets without a price discrepancy are skipped; a successful
execution returns from the whole strategy. -/
def oracleDelayGroupLoop (maxGasPriceGwei : Nat) (minProfitUsd : ℚ)
    (env : Nat → ChainEnv) (now : Nat) :
    List OracleGroup → SMState → Nat → StrategyLoopResult
  | [], st, k => ⟨st, [], k, false⟩
  | g :: rest, st, k =>
    if g.hasDebtDiscrepancy then
      let res := oracleDelayCollLoop maxGasPriceGwei minProfitUsd env now
        g.collaterals st k
      if res.returned then res
      else
        let res2 := oracleDelayGroupLoop maxGasPriceGwei minProfitUsd env now
          rest res.state res.attempts
        ⟨res2.state, res.submitted ++ res2.submitted, res2.attempts, res2.returned⟩
    else oracleDelayGroupLoop maxGasPriceGwei minProfitUsd env now rest st k

/-- Models oracleDelayStrategy (src/strategies/strategyManager.ts lines
246-297).  Unlike executeStrategy, this entry point never consults
lastExecutionTime or executionCooldown before executing. -/
def oracleDelayStrategy (maxGasPriceGwei : Nat) (minProfitUsd : ℚ)
    (env : Nat → ChainEnv) (now : Nat) (groups : List OracleGroup)
    (st : SMState) : SMState × List FlashLoanParams :=
  let res := oracleDelayGroupLoop maxGasPriceGwei minProfitUsd env now groups st 0
  (res.state, res.submitted)

/-- One liquidatable position as consumed by eModeStrategy
(strategyManager.ts lines 303-345): its E-Mode category id and the profit
calculations of its debt/collateral pairs in iteration order. -/
structure EModePosition where
  eModeCategoryId : Nat
  calculations : List LiquidationProfitCalculation

/-- Models the inner pair loop of eModeStrategy (strategyManager.ts lines
314-340): profitable calculations get a 1.2 priority boost and are executed
when net profit exceeds 1.5 times the minimum - again with no cooldown
check - returning early on success. -/
def eModeCalcLoop (maxGasPriceGwei : Nat) (minProfitUsd : ℚ)
    (env : Nat → ChainEnv) (now : Nat) :
    List LiquidationProfitCalculation → SMState → Nat → StrategyLoopResult
  | [], st, k => ⟨st, [], k, false⟩
  | pc :: rest, st, k =>
    if pc.profitable then
      let boosted := { pc with
        executionPriority := pc.executionPriority * (6 / 5) }
      if boosted.netProfitUsd > minProfitUsd * (3 / 2) then
        let r := executeLiquidation maxGasPriceGwei (env k) now boosted
        let st2 : SMState :=
          { lastExecutionTime := now,
            executionHistory := st.executionHistory ++ [r.1] }
        if r.1.success then ⟨st2, r.2.toList, k + 1, true⟩
        else
          let res := eModeCalcLoop maxGasPriceGwei minProfitUsd env now
            rest st2 (k + 1)
          ⟨res.state, r.2.toList ++ res.submitted, res.attempts, res.returned⟩
      else eModeCalcLoop maxGasPriceGwei minProfitUsd env now rest st k
    else eModeCalcLoop maxGasPriceGwei minProfitUsd env now rest st k

/-- Models the position loop of eModeStrategy over the already-filtered
E-Mode positions. -/
def eModePosLoop (maxGasPriceGwei : Nat) (minProfitUsd : ℚ)
    (env : Nat → ChainEnv) (now : Nat) :
    List EModePosition → SMState → Nat → StrategyLoopResult
  | [], st, k => ⟨st, [], k, false⟩
  | p :: rest, st, k =>
    let res := eModeCalcLoop maxGasPriceGwei minProfitUsd env now
      p.calculations st k
    if res.returned then res
    else
      let res2 := eModePosLoop maxGasPriceGwei minProfitUsd env now
        rest res.state res.attempts
      ⟨res2.state, res.submitted ++ res2.submitted, res2.attempts, res2.returned⟩

/-- Models eModeStrategy (src/strategies/strategyManager.ts lines 303-345):
positions are first filtered to those with a nonzero E-Mode category; no
cooldown check is performed before executing. -/
def eModeStrategy (maxGasPriceGwei : Nat) (minProfitUsd : ℚ)
    (env : Nat → ChainEnv) (now : Nat) (positions : List EModePosition)
    (st : SMState) : SMState × List FlashLoanParams :=
  let eModePositions := positions.filter (fun p => p.eModeCategoryId ≠ 0)
  let res := eModePosLoop maxGasPriceGwei minProfitUsd env now eModePositions st 0
  (res.state, res.submitted)

/-- Comparator of the ranking step (src/strategies/eModeStrategy.ts line 107
and the OracleDelayStrategy scan): the JS comparator
(a, b) => b.executionPriority - a.executionPriority places a before b exactly
when b.executionPriority is at most a.executionPriority. -/
def priorityDescLE (a b : LiquidationProfitCalculation) : Bool :=
  decide (b.executionPriority ≤ a.executionPriority)

/-- Models opportunities.sort with the descending-priority comparator.
Array.prototype.sort is required to be stable (ECMAScript 2019 and later),
and for a consistent comparator the stable sorted permutation is unique, so
any stable sorting algorithm is a faithful model; mergeSort is used here. -/
def sortOpportunities (opportunities : List LiquidationProfitCalculation) :
    List LiquidationProfitCalculation :=
  opportunities.mergeSort priorityDescLE

/-- Concrete profitable calculation used in the execution scenarios below:
1000 units of a 2000 USD debt asset (6 decimals) against an 18-decimal
collateral asset priced at 1 USD with the fallback 1.05 bonus; the values are
those calculateLiquidationProfit produces for these inputs (debt to cover 950
units, net profit 93288 USD). -/
def sampleCalc : LiquidationProfitCalculation :=
  { target := { user := 11, healthFactor := 900000000000000000, eModeCategoryId := 1 }
    debtAsset :=
      { address := 2, symbol := "WETH6", amount := 1000000000, decimals := 6,
        liquidationBonus := none }
    collateralAsset :=
      { address := 3, symbol := "DAI", amount := 0, decimals := 18,
        liquidationBonus := none }
    debtToCover := 950000000
    collateralToReceive := 1995000000000000000000000
    liquidationBonus := 21 / 20
    estimatedProfitUsd := 95000
    estimatedGasCostUsd := 1712
    netProfitUsd := 93288
    profitable := true
    executionPriority := 11661 / 2375 }

/-- Chain environment in which the gas price is acceptable and the submitted
transaction settles successfully. -/
def sampleEnvOk : Nat → ChainEnv :=
  fun _ => { currentGasPrice := 1000000000,
             submitResult := Except.ok
               { status := 1, transactionHash := 777, gasUsed := 500000,
                 effectiveGasPrice := 1000000000 } }

/-- C4 counterexample: a concrete oracle delay run started one millisecond
after the previous execution - far inside the 60000 ms cooldown window -
nevertheless submits a transaction, appends a history entry and updates the
last-execution timestamp, so the claimed rejection without side effects is
false for the oracleDelayStrategy entry point. -/
theorem second_execution_in_cooldown_counterexample :
    (1000001 : Nat) - (1000000 : Nat) < executionCooldown
    ∧ (oracleDelayStrategy 100 50 sampleEnvOk 1000001
        [{ hasDebtDiscrepancy := true,
           collaterals := [{ hasCollateralDiscrepancy := true,
                             calculation := sampleCalc }] }]
        { lastExecutionTime := 1000000, executionHistory := [] }).2 ≠ []
    ∧ (oracleDelayStrategy 100 50 sampleEnvOk 1000001
        [{ hasDebtDiscrepancy := true,
           collaterals := [{ hasCollateralDiscrepancy := true,
                             calculation := sampleCalc }] }]
        { lastExecutionTime := 1000000, executionHistory := [] }).1.executionHistory.length
      = 1
    ∧ (oracleDelayStrategy 100 50 sampleEnvOk 1000001
        [{ hasDebtDiscrepancy := true,
           collaterals := [{ hasCollateralDiscrepancy := true,
                             calculation := sampleCalc }] }]
        { lastExecutionTime := 1000000, executionHistory := [] }).1.lastExecutionTime
      ≠ 1000000 := by
  refine ⟨by norm_num [executionCooldown], ?_, ?_, ?_⟩ <;>
    norm_num [oracleDelayStrategy, oracleDelayGroupLoop, oracleDelayCollLoop,
      executeLiquidation, sampleEnvOk, sampleCalc]

/-- C4 amended: only the executeStrategy entry point enforces the cooldown -
an executeStrategy attempt before the cooldown window has elapsed is rejected
without side effects (state unchanged, nothing submitted) - while the
oracleDelayStrategy and eModeStrategy entry points perform no cooldown check
and can submit a transaction at any time, as the concrete within-cooldown
runs in the last two conjuncts show. -/
theorem cooldown_only_in_executeStrategy :
    (∀ (maxGasPriceGwei : Nat) (st : SMState) (now : Nat)
        (calculations : List LiquidationProfitCalculation) (env : ChainEnv),
      now - st.lastExecutionTime < executionCooldown →
      executeStrategy maxGasPriceGwei st now calculations env = (st, []))
    ∧ (oracleDelayStrategy 100 50 sampleEnvOk 1000001
        [{ hasDebtDiscrepancy := true,
           collaterals := [{ hasCollateralDiscrepancy := true,
                             calculation := sampleCalc }] }]
        { lastExecutionTime := 1000000, executionHistory := [] }).2 ≠ []
    ∧ (eModeStrategy 100 50 sampleEnvOk 1000001
        [{ eModeCategoryId := 1, calculations := [sampleCalc] }]
        { lastExecutionTime := 1000000, executionHistory := [] }).2 ≠ [] := by
  refine ⟨?_, ?_, ?_⟩
  · intro maxGasPriceGwei st now calculations env h
    simp [executeStrategy, h]
  · norm_num [oracleDelayStrategy, oracleDelayGroupLoop, oracleDelayCollLoop,
      executeLiquidation, sampleEnvOk, sampleCalc]
  · norm_num [eModeStrategy, eModePosLoop, eModeCalcLoop,
      executeLiquidation, sampleEnvOk, sampleCalc]

/-- Witness for cooldown_only_in_executeStrategy: a concrete executeStrategy
call one millisecond into the cooldown changes nothing. -/
theorem cooldown_only_in_executeStrategy_witness :
    executeStrategy 100 { lastExecutionTime := 1000000, executionHistory := [] }
        1000001 [sampleCalc] (sampleEnvOk 0)
      = ({ lastExecutionTime := 1000000, executionHistory := [] }, []) :=
  cooldown_only_in_executeStrategy.1 100
    { lastExecutionTime := 1000000, executionHistory := [] } 1000001
    [sampleCalc] (sampleEnvOk 0) (by norm_num [executionCooldown])

/-- Chain environment whose gas price 200 gwei exceeds the 100 gwei ceiling
used in the scenarios. -/
def sampleEnvHighGas : ChainEnv :=
  { currentGasPrice := 200000000000,
    submitResult := Except.ok
      { status := 1, transactionHash := 777, gasUsed := 500000,
        effectiveGasPrice := 200000000000 } }

/-- C5 counterexample: a concrete executeStrategy run with the cooldown long
elapsed and the gas price above the ceiling aborts without submitting - but
the last-execution timestamp changes from 0 to the attempt time, so the
claimed unchanged cooldown timer is false: the strategy manager consumes the
cooldown even for a gas-price abort. -/
theorem gasAbort_consumes_cooldown_counterexample :
    (executeStrategy 100 { lastExecutionTime := 0, executionHistory := [] }
        100000 [sampleCalc] sampleEnvHighGas).2 = []
    ∧ ((executeStrategy 100 { lastExecutionTime := 0, executionHistory := [] }
        100000 [sampleCalc] sampleEnvHighGas).1.executionHistory.map
          ExecutionResult.error) = [some "Gas price too high"]
    ∧ (executeStrategy 100 { lastExecutionTime := 0, executionHistory := [] }
        100000 [sampleCalc] sampleEnvHighGas).1.lastExecutionTime ≠ 0 := by
  refine ⟨?_, ?_, ?_⟩ <;>
    norm_num [executeStrategy, executionCooldown, bestOpportunity,
      executeLiquidation, sampleEnvHighGas, sampleCalc]

/-- C5 amended: when the current gas price exceeds the configured ceiling the
attempt aborts with error message Gas price too high, returns a failed
ExecutionResult without submitting any transaction - but the calling
executeStrategy still sets the last-execution timestamp to the attempt time
and appends the abort to the history, so the cooldown is consumed by such an
abort. -/
theorem gasPrice_gate_aborts_and_consumes_cooldown (maxGasPriceGwei : Nat)
    (env : ChainEnv) (now : Nat) (calculation : LiquidationProfitCalculation)
    (hgas : env.currentGasPrice > maxGasPriceGwei * 10 ^ 9) :
    executeLiquidation maxGasPriceGwei env now calculation
      = ({ success := false, transactionHash := none,
           error := some "Gas price too high", gasUsed := none,
           gasCostWei := none, timestamp := now }, none)
    ∧ ∀ (st : SMState) (calculations : List LiquidationProfitCalculation)
        (best : LiquidationProfitCalculation),
        ¬ now - st.lastExecutionTime < executionCooldown →
        bestOpportunity calculations = some best →
        executeStrategy maxGasPriceGwei st now calculations env
          = ({ lastExecutionTime := now,
               executionHistory := st.executionHistory
                 ++ [{ success := false, transactionHash := none,
                       error := some "Gas price too high", gasUsed := none,
                       gasCostWei := none, timestamp := now }] }, []) := by
  have habort : ∀ pc : LiquidationProfitCalculation,
      executeLiquidation maxGasPriceGwei env now pc
      = ({ success := false, transactionHash := none,
           error := some "Gas price too high", gasUsed := none,
           gasCostWei := none, timestamp := now }, none) := by
    intro pc
    simp only [executeLiquidation]
    rw [if_pos hgas]
  refine ⟨habort calculation, ?_⟩
  intro st calculations best hcool hbest
  simp only [executeStrategy]
  rw [if_neg hcool, hbest]
  simp [habort best]

/-- Witness for gasPrice_gate_aborts_and_consumes_cooldown at concrete
inputs: gas price 200 gwei against a 100 gwei ceiling. -/
theorem gasPrice_gate_aborts_and_consumes_cooldown_witness :
    executeLiquidation 100 sampleEnvHighGas 100000 sampleCalc
      = ({ success := false, transactionHash := none,
           error := some "Gas price too high", gasUsed := none,
           gasCostWei := none, timestamp := 100000 }, none)
    ∧ executeStrategy 100 { lastExecutionTime := 0, executionHistory := [] }
        100000 [sampleCalc] sampleEnvHighGas
      = ({ lastExecutionTime := 100000,
           executionHistory := [{ success := false,
                                  transactionHash := none,
                                  error := some "Gas price too high",
                                  gasUsed := none,
                                  gasCostWei := none,
                                  timestamp := 100000 }] }, []) := by
  have h := gasPrice_gate_aborts_and_consumes_cooldown 100 sampleEnvHighGas
    100000 sampleCalc (by norm_num [sampleEnvHighGas])
  refine ⟨h.1, ?_⟩
  have h2 := h.2 { lastExecutionTime := 0, executionHistory := [] }
    [sampleCalc] sampleCalc (by norm_num [executionCooldown])
    (by norm_num [bestOpportunity, sampleCalc])
  simpa using h2

/-- C6 counterexample: a concrete settlement that reports failure status 0
yields an ExecutionResult with success false and error message
Transaction failed - not the error string SettlementFailed the claim
names - so the claim is false as stated on the error value. -/
theorem settlement_failure_error_string_counterexample :
    (executeLiquidation 100
        { currentGasPrice := 1000000000,
          submitResult := Except.ok
            { status := 0, transactionHash := 777, gasUsed := 500000,
              effectiveGasPrice := 1000000000 } } 5 sampleCalc).1.success = false
    ∧ (executeLiquidation 100
        { currentGasPrice := 1000000000,
          submitResult := Except.ok
            { status := 0, transactionHash := 777, gasUsed := 500000,
              effectiveGasPrice := 1000000000 } } 5 sampleCalc).1.error
      = some "Transaction failed"
    ∧ (executeLiquidation 100
        { currentGasPrice := 1000000000,
          submitResult := Except.ok
            { status := 0, transactionHash := 777, gasUsed := 500000,
              effectiveGasPrice := 1000000000 } } 5 sampleCalc).1.error
      ≠ some "SettlementFailed" := by
  refine ⟨?_, ?_, ?_⟩
  · norm_num [executeLiquidation]
  · norm_num [executeLiquidation]
  · norm_num [executeLiquidation]
    decide

/-- C6 amended: executeLiquidation surfaces every failure as an
ExecutionResult value rather than an exception - a settlement reporting a
non-success status yields success false with error message
Transaction failed, and an error thrown during submission or confirmation
yields success false carrying that error message. -/
theorem execution_failures_returned_as_results (maxGasPriceGwei : Nat)
    (env : ChainEnv) (now : Nat) (calculation : LiquidationProfitCalculation)
    (hgas : ¬ env.currentGasPrice > maxGasPriceGwei * 10 ^ 9) :
    (∀ receipt, env.submitResult = Except.ok receipt → receipt.status ≠ 1 →
      (executeLiquidation maxGasPriceGwei env now calculation).1
        = { success := false, transactionHash := some receipt.transactionHash,
            error := some "Transaction failed", gasUsed := some receipt.gasUsed,
            gasCostWei := some (receipt.gasUsed * receipt.effectiveGasPrice),
            timestamp := now })
    ∧ (∀ msg, env.submitResult = Except.error msg →
      (executeLiquidation maxGasPriceGwei env now calculation).1
        = { success := false, transactionHash := none, error := some msg,
            gasUsed := none, gasCostWei := none, timestamp := now }) := by
  constructor
  · intro receipt hr hs
    simp only [executeLiquidation]
    rw [if_neg hgas, hr]
    simp [hs]
  · intro msg hm
    simp only [executeLiquidation]
    rw [if_neg hgas, hm]

/-- Witness for execution_failures_returned_as_results: a failed settlement
and a thrown submission error, both at concrete inputs. -/
theorem execution_failures_returned_as_results_witness :
    (executeLiquidation 100
        { currentGasPrice := 1000000000,
          submitResult := Except.ok
            { status := 0, transactionHash := 778, gasUsed := 400000,
              effectiveGasPrice := 1000000000 } } 9 sampleCalc).1
      = { success := false, transactionHash := some 778,
          error := some "Transaction failed", gasUsed := some 400000,
          gasCostWei := some 400000000000000, timestamp := 9 }
    ∧ (executeLiquidation 100
        { currentGasPrice := 1000000000,
          submitResult := Except.error "INSUFFICIENT_FUNDS" } 9 sampleCalc).1
      = { success := false, transactionHash := none,
          error := some "INSUFFICIENT_FUNDS", gasUsed := none,
          gasCostWei := none, timestamp := 9 } := by
  constructor
  · have h := (execution_failures_returned_as_results 100
      { currentGasPrice := 1000000000,
        submitResult := Except.ok
          { status := 0, transactionHash := 778, gasUsed := 400000,
            effectiveGasPrice := 1000000000 } } 9 sampleCalc (by norm_num)).1
      { status := 0, transactionHash := 778, gasUsed := 400000,
        effectiveGasPrice := 1000000000 } rfl (by norm_num)
    simpa using h
  · exact (execution_failures_returned_as_results 100
      { currentGasPrice := 1000000000,
        submitResult := Except.error "INSUFFICIENT_FUNDS" } 9 sampleCalc
      (by norm_num)).2 "INSUFFICIENT_FUNDS" rfl

/-- Helper: the descending-priority comparator is transitive. -/
theorem priorityDescLE_trans (a b c : LiquidationProfitCalculation)
    (h1 : priorityDescLE a b) (h2 : priorityDescLE b c) : priorityDescLE a c := by
  simp only [priorityDescLE, decide_eq_true_eq] at h1 h2 ⊢
  exact le_trans h2 h1

/-- Helper: the descending-priority comparator is total. -/
theorem priorityDescLE_total (a b : LiquidationProfitCalculation) :
    priorityDescLE a b || priorityDescLE b a := by
  simp only [priorityDescLE, Bool.or_eq_true, decide_eq_true_eq]
  exact le_total b.executionPriority a.executionPriority

/-- C7: the ranking step returns a permutation of its input, ordered so that
priority scores are descending, and it is stable: for every score value, the
estimates carrying that score appear in exactly the order they were produced. -/
theorem ranking_sorted_stable_perm
    (opportunities : List LiquidationProfitCalculation) :
    (sortOpportunities opportunities).Perm opportunities
    ∧ (sortOpportunities opportunities).Pairwise
        (fun a b => b.executionPriority ≤ a.executionPriority)
    ∧ ∀ score : ℚ,
        (sortOpportunities opportunities).filter
            (fun pc => decide (pc.executionPriority = score))
          = opportunities.filter (fun pc => decide (pc.executionPriority = score)) := by
  refine ⟨List.mergeSort_perm opportunities priorityDescLE, ?_, ?_⟩
  · have h := List.sorted_mergeSort
      (fun a b c h1 h2 => priorityDescLE_trans a b c h1 h2)
      priorityDescLE_total opportunities
    exact h.imp (fun hab => by
      simpa [priorityDescLE, decide_eq_true_eq] using hab)
  · intro score
    have hpw : (opportunities.filter
        (fun pc => decide (pc.executionPriority = score))).Pairwise
        (fun a b => priorityDescLE a b = true) := by
      apply List.pairwise_of_forall_mem_list
      intro a ha b hb
      have ha2 := (List.mem_filter.mp ha).2
      have hb2 := (List.mem_filter.mp hb).2
      simp only [decide_eq_true_eq] at ha2 hb2
      simp [priorityDescLE, ha2, hb2]
    have hsub : List.Sublist (opportunities.filter
        (fun pc => decide (pc.executionPriority = score)))
        (sortOpportunities opportunities) :=
      List.sublist_mergeSort
        (fun a b c h1 h2 => priorityDescLE_trans a b c h1 h2)
        priorityDescLE_total hpw (List.filter_sublist opportunities)
    have hsub2 : List.Sublist (opportunities.filter
        (fun pc => decide (pc.executionPriority = score)))
        ((sortOpportunities opportunities).filter
          (fun pc => decide (pc.executionPriority = score))) := by
      have h := hsub.filter (fun pc => decide (pc.executionPriority = score))
      rwa [List.filter_filter, show
        (fun a => decide (a.executionPriority = score)
          && decide (a.executionPriority = score))
        = (fun a : LiquidationProfitCalculation =>
            decide (a.executionPriority = score)) from by
          funext a
          exact Bool.and_self _] at h
    have hlen : ((sortOpportunities opportunities).filter
        (fun pc => decide (pc.executionPriority = score))).length
        = (opportunities.filter
            (fun pc => decide (pc.executionPriority = score))).length :=
      ((List.mergeSort_perm opportunities priorityDescLE).filter _).length_eq
    exact (hsub2.eq_of_length hlen.symm).symm
